import Mathlib

/-!
Shallow embedding of the url-monitoring repository
(`src/url-monitor.py`, v1.0.3, and `src/monitor_urls.py`, v1.0.0):
the per-target failure-debouncing state machine of `monitor`, the
content inspection of `keyword_found`, the probe classification of
`check_url` / `is_internal_ip` / `is_local_ip`, and the failure-store
loading of `load_failures`, together with proofs of the spec's
testable properties.
-/

namespace UrlMonitoring

/-- `FAILURE_THRESHOLD = 5`, identical in both scripts. -/
def FAILURE_THRESHOLD : Nat := 5

/-- `RETRY_COUNT = 2` in `url-monitor.py` (retry before marking DOWN). -/
def RETRY_COUNT : Nat := 2

/-- The two booleans one monitoring cycle feeds the debounce logic:
`reachable` from `check_url`, and the script-local
`keyword_missing = keyword and reachable and not keyword_found(content, keyword)`.
The spec's `contentOk` is the negation of `keyword_missing`; when the target is
unreachable, `keyword_missing` is false, i.e. content is vacuously ok. -/
structure Outcome where
  reachable : Bool
  keyword_missing : Bool
deriving DecidableEq, Repr

/-- A cycle is fully successful exactly when the scripts take the `else`
branch of `if not reachable or keyword_missing`. -/
def Outcome.ok (o : Outcome) : Bool := o.reachable && !o.keyword_missing

/-- A failing probe cycle (unreachable). -/
def bad : Outcome := ⟨false, false⟩

/-- A fully successful probe cycle. -/
def good : Outcome := ⟨true, false⟩

/-- The notification intent one cycle produces for one target:
no Discord message, the down-alert message (`❌` / `⚠️ MISSING`),
or the recovery message (`✅`). -/
inductive Intent where
  | noAlert
  | alertDown
  | alertUp
deriving DecidableEq, Repr

namespace UM

/-! ### `url-monitor.py` (v1.0.3): three-field per-URL record
`{"failures": .., "notified_down": .., "notified_up": ..}` -/

/-- The per-URL record of `failures[url]` in `url-monitor.py`. -/
structure St where
  failures : Nat
  notified_down : Bool
  notified_up : Bool
deriving DecidableEq, Repr

/-- The record created on first observation of a URL:
`{"failures": 0, "notified_down": False, "notified_up": False}`. -/
def init : St := ⟨0, false, false⟩

/-- One iteration of the per-URL body of `monitor` in `url-monitor.py`
(lines 146–169), as a function of the prior record and the cycle's
outcome, returning the updated record and the notification intent. -/
def step (s : St) (o : Outcome) : St × Intent :=
  if !o.reachable || o.keyword_missing then
    if FAILURE_THRESHOLD ≤ s.failures + 1 ∧ s.notified_down = false then
      (⟨s.failures + 1, true, false⟩, Intent.alertDown)
    else
      (⟨s.failures + 1, s.notified_down, s.notified_up⟩, Intent.noAlert)
  else
    if FAILURE_THRESHOLD ≤ s.failures ∧ s.notified_up = false then
      (⟨0, false, true⟩, Intent.alertUp)
    else
      (⟨0, s.notified_down, s.notified_up⟩, Intent.noAlert)

/-- Iterating `step` over a list of per-cycle outcomes, collecting the
final record and the per-cycle intents in order. -/
def run : St → List Outcome → St × List Intent
  | s, [] => (s, [])
  | s, o :: os =>
    ((run (step s o).1 os).1, (step s o).2 :: (run (step s o).1 os).2)

end UM

namespace MU

/-! ### `monitor_urls.py` (v1.0.0): two-field per-URL record
`{"failures": .., "notified": ..}` -/

/-- The per-URL record of `failures.get(url, ...)` in `monitor_urls.py`. -/
structure St where
  failures : Nat
  notified : Bool
deriving DecidableEq, Repr

/-- The default record: `{"failures": 0, "notified": False}`. -/
def init : St := ⟨0, false⟩

/-- One iteration of the per-URL body of `monitor` in `monitor_urls.py`
(lines 126–146): the failure count is capped at the threshold
(`min(failure_count + 1, FAILURE_THRESHOLD)`), and a successful cycle
resets both the count and the `notified` flag. -/
def step (s : St) (o : Outcome) : St × Intent :=
  if !o.reachable || o.keyword_missing then
    if FAILURE_THRESHOLD ≤ min (s.failures + 1) FAILURE_THRESHOLD ∧ s.notified = false then
      (⟨min (s.failures + 1) FAILURE_THRESHOLD, true⟩, Intent.alertDown)
    else
      (⟨min (s.failures + 1) FAILURE_THRESHOLD, s.notified⟩, Intent.noAlert)
  else
    if FAILURE_THRESHOLD ≤ s.failures ∧ s.notified = true then
      (⟨0, false⟩, Intent.alertUp)
    else
      (⟨0, false⟩, Intent.noAlert)

/-- Iterating `step` over a list of per-cycle outcomes. -/
def run : St → List Outcome → St × List Intent
  | s, [] => (s, [])
  | s, o :: os =>
    ((run (step s o).1 os).1, (step s o).2 :: (run (step s o).1 os).2)

end MU

/-! ### Content inspection (`keyword_found`, identical in both scripts) -/

/-- Lower-casing of a Python string (`str.lower`), on its characters. -/
def toLowerStr (s : List Char) : List Char := s.map Char.toLower

/-- Model of `BeautifulSoup(content, "html.parser").get_text()`: the
rendered text of the markup, i.e. the characters outside `<` … `>` tag
delimiters. (BeautifulSoup is an external library; this models its
behaviour on well-formed markup such as the spec's examples.) -/
def getTextAux : Bool → List Char → List Char
  | _, [] => []
  | inTag, c :: cs =>
    if c = '<' then getTextAux true cs
    else if c = '>' then getTextAux false cs
    else if inTag then getTextAux true cs
    else c :: getTextAux false cs

/-- `get_text` starting outside any tag. -/
def getText (s : List Char) : List Char := getTextAux false s

/-- Python's substring test `needle in hay` for strings:
`needle` occurs contiguously in `hay`. -/
def strContains (needle : List Char) : List Char → Bool
  | [] => needle.isEmpty
  | c :: t => needle.isPrefixOf (c :: t) || strContains needle t

/-- `keyword_found(content, keyword)` (both scripts, lines 103–112 /
87–96): returns `False` when `content` or `keyword` is falsy
(`None` or empty); otherwise lower-cases the keyword, extracts the
markup-free text of the content, lower-cases it, and tests substring
containment. -/
def keyword_found (content keyword : Option (List Char)) : Bool :=
  match content, keyword with
  | some c, some k =>
    if c.isEmpty || k.isEmpty then false
    else strContains (toLowerStr k) (toLowerStr (getText c))
  | _, _ => false

/-- The call-site expression of `monitor`:
`keyword_missing = keyword and reachable and not keyword_found(content, keyword)`
(Python truthiness: a `None` or empty keyword makes the conjunction falsy). -/
def keyword_missing (keyword : Option (List Char)) (reachable : Bool)
    (content : Option (List Char)) : Bool :=
  match keyword with
  | none => false
  | some k => !k.isEmpty && reachable && !keyword_found content (some k)

/-! ### The prober (`check_url`) -/

/-- The outcome the network environment hands one `requests.get` attempt:
`none` models a raised `requests.RequestException` (timeout, connection
error, TLS failure, bad scheme), `some (status, body)` a response. -/
def Att : Type := Option (Nat × List Char)

/-- `is_internal_ip(url)` of `url-monitor.py` (lines 56–59), as a function
of `urlparse(url).hostname` (`none` when the URL has no hostname):
`hostname and hostname.startswith("192.168.178.")` — falsy hostname
short-circuits, nothing is raised. -/
def is_internal_ip (hostname : Option (List Char)) : Bool :=
  match hostname with
  | none => false
  | some h => !h.isEmpty && "192.168.178.".toList.isPrefixOf h

/-- The retry loop of `check_url` in `url-monitor.py`: scan the attempt
outcomes in order, short-circuiting at the first acceptable status;
a raised `RequestException` is caught and the loop continues. -/
def runAttempts (accept : Nat → Bool) : List Att → Bool × Option (List Char)
  | [] => (false, none)
  | none :: rest => runAttempts accept rest
  | some (st, body) :: rest =>
    if accept st then (true, some body) else runAttempts accept rest

/-- `check_url(url)` of `url-monitor.py` (lines 88–101): up to
`RETRY_COUNT` attempts, a try succeeds iff `status_code in [200, 401]`,
and if no attempt succeeds the result is `(False, None)`. The hostname
only selects `verify_ssl` and cannot raise. -/
def UM.check_url (hostname : Option (List Char)) (attempts : List Att) :
    Bool × Option (List Char) :=
  let _verify_ssl : Bool := !is_internal_ip hostname
  runAttempts (fun st => st == 200 || st == 401) (attempts.take RETRY_COUNT)

/-- The one Python exception class this model needs to distinguish:
`AttributeError`, which `except requests.RequestException` does not catch. -/
inductive PyError where
  | attributeError
deriving DecidableEq, Repr

/-- `is_local_ip(url)` of `monitor_urls.py` (lines 44–48):
`hostname.startswith("192.168.") or hostname.startswith("10.") or
hostname.endswith(".local")` — with NO guard for a `None` hostname, so a
URL without a hostname raises `AttributeError`. -/
def MU.is_local_ip (hostname : Option (List Char)) : Except PyError Bool :=
  match hostname with
  | none => Except.error PyError.attributeError
  | some h =>
    Except.ok ("192.168.".toList.isPrefixOf h || "10.".toList.isPrefixOf h
      || ".local".toList.isSuffixOf h)

/-- `check_url(url)` of `monitor_urls.py` (lines 73–85): a single attempt
inside `try: verify_ssl = not is_local_ip(url); response = requests.get(...)`
with `except requests.RequestException` returning `(False, None)`.
The `AttributeError` raised by `is_local_ip` on a hostname-less URL is not
a `RequestException` and propagates out of `check_url`. A response
succeeds iff `status_code == 200`. -/
def MU.check_url (hostname : Option (List Char)) (attempt : Att) :
    Except PyError (Bool × Option (List Char)) :=
  match MU.is_local_ip hostname with
  | Except.error e => Except.error e
  | Except.ok _verify_ssl =>
    match attempt with
    | none => Except.ok (false, none)
    | some (st, body) =>
      if st == 200 then Except.ok (true, some body) else Except.ok (false, none)

/-! ### The failure store (`load_failures`) -/

/-- `load_failures()` (both scripts), as a function of the backing file's
condition: `none` = `failures.json` does not exist (`os.path.exists`
false), `some none` = the file exists but `json.load` raises
`JSONDecodeError` (caught in both scripts; `url-monitor.py` also catches
`IOError`), `some (some m)` = the file parses to the mapping `m`.
Every branch returns a value — nothing escapes to the caller. -/
def load_failures {M : Type} (empty : M) (backing : Option (Option M)) : M :=
  match backing with
  | none => empty
  | some none => empty
  | some (some m) => m

/-! ### Step-characterisation lemmas -/

lemma Outcome.fail_false (o : Outcome) (h : (o.reachable && !o.keyword_missing) = true) :
    ¬ ((!o.reachable || o.keyword_missing) = true) := by
  rcases o with ⟨r, k⟩
  cases r <;> cases k <;> simp_all

lemma um_step_fail (s : UM.St) (o : Outcome)
    (h : (!o.reachable || o.keyword_missing) = true) :
    UM.step s o =
      if FAILURE_THRESHOLD ≤ s.failures + 1 ∧ s.notified_down = false then
        (⟨s.failures + 1, true, false⟩, Intent.alertDown)
      else
        (⟨s.failures + 1, s.notified_down, s.notified_up⟩, Intent.noAlert) := by
  unfold UM.step
  rw [if_pos h]

lemma um_step_ok (s : UM.St) (o : Outcome)
    (h : (o.reachable && !o.keyword_missing) = true) :
    UM.step s o =
      if FAILURE_THRESHOLD ≤ s.failures ∧ s.notified_up = false then
        (⟨0, false, true⟩, Intent.alertUp)
      else
        (⟨0, s.notified_down, s.notified_up⟩, Intent.noAlert) := by
  unfold UM.step
  rw [if_neg (Outcome.fail_false o h)]

lemma mu_step_fail (s : MU.St) (o : Outcome)
    (h : (!o.reachable || o.keyword_missing) = true) :
    MU.step s o =
      if FAILURE_THRESHOLD ≤ min (s.failures + 1) FAILURE_THRESHOLD ∧ s.notified = false then
        (⟨min (s.failures + 1) FAILURE_THRESHOLD, true⟩, Intent.alertDown)
      else
        (⟨min (s.failures + 1) FAILURE_THRESHOLD, s.notified⟩, Intent.noAlert) := by
  unfold MU.step
  rw [if_pos h]

lemma mu_step_ok (s : MU.St) (o : Outcome)
    (h : (o.reachable && !o.keyword_missing) = true) :
    MU.step s o =
      if FAILURE_THRESHOLD ≤ s.failures ∧ s.notified = true then
        (⟨0, false⟩, Intent.alertUp)
      else
        (⟨0, false⟩, Intent.noAlert) := by
  unfold MU.step
  rw [if_neg (Outcome.fail_false o h)]

/-! ### Reachability invariants of the debounce state -/

/-- Invariant of every `url-monitor.py` record reachable from `init`:
the down flag is set exactly when the count has reached the threshold,
and the two flags are never both set. -/
def UM.Inv (s : UM.St) : Prop :=
  (s.notified_down = true ↔ FAILURE_THRESHOLD ≤ s.failures) ∧
  (s.notified_down = true → s.notified_up = false)

lemma um_inv_init : UM.Inv UM.init := by
  constructor <;> simp [UM.init, FAILURE_THRESHOLD]

lemma um_inv_step (s : UM.St) (o : Outcome) (h : UM.Inv s) : UM.Inv (UM.step s o).1 := by
  rcases s with ⟨f, d, u⟩
  rcases h with ⟨h1, h2⟩
  simp only [UM.Inv] at h1 h2 ⊢
  unfold UM.step
  split_ifs with hfail halert hup
  · simp only
    exact ⟨by simpa using halert.1, by simp⟩
  · simp only
    refine ⟨?_, h2⟩
    constructor
    · intro hd
      have := h1.mp hd
      omega
    · intro hle
      by_contra hd
      exact halert ⟨hle, by simpa using hd⟩
  · simp only
    constructor
    · simp [FAILURE_THRESHOLD]
    · simp
  · simp only
    refine ⟨?_, h2⟩
    constructor
    · intro hd
      exact absurd ⟨h1.mp hd, h2 hd⟩ hup
    · intro hle
      simp [FAILURE_THRESHOLD] at hle

/-- Invariant of every `monitor_urls.py` record reachable from `init`:
`notified` is set exactly when the count has reached the threshold, and
the count is capped at the threshold. -/
def MU.Inv (s : MU.St) : Prop :=
  (s.notified = true ↔ FAILURE_THRESHOLD ≤ s.failures) ∧
  s.failures ≤ FAILURE_THRESHOLD

lemma mu_inv_init : MU.Inv MU.init := by
  constructor <;> simp [MU.init, FAILURE_THRESHOLD]

lemma mu_inv_step (s : MU.St) (o : Outcome) (h : MU.Inv s) : MU.Inv (MU.step s o).1 := by
  rcases s with ⟨f, n⟩
  rcases h with ⟨h1, h2⟩
  simp only [MU.Inv] at h1 h2 ⊢
  unfold MU.step
  split_ifs with hfail halert hup
  · simp only
    exact ⟨by simpa using halert.1, by omega⟩
  · simp only
    refine ⟨?_, by omega⟩
    constructor
    · intro hn
      have := h1.mp hn
      omega
    · intro hle
      by_contra hn
      exact halert ⟨hle, by simpa using hn⟩
  · simp only
    constructor
    · simp [FAILURE_THRESHOLD]
    · simp [FAILURE_THRESHOLD]
  · simp only
    constructor
    · simp [FAILURE_THRESHOLD]
    · simp [FAILURE_THRESHOLD]

lemma um_inv_run (tr : List Outcome) : ∀ s, UM.Inv s → UM.Inv (UM.run s tr).1 := by
  induction tr with
  | nil => intro s h; simpa [UM.run] using h
  | cons o os ih =>
    intro s h
    simp only [UM.run]
    exact ih _ (um_inv_step s o h)

lemma mu_inv_run (tr : List Outcome) : ∀ s, MU.Inv s → MU.Inv (MU.run s tr).1 := by
  induction tr with
  | nil => intro s h; simpa [MU.run] using h
  | cons o os ih =>
    intro s h
    simp only [MU.run]
    exact ih _ (mu_inv_step s o h)

/-! ### Field-explicit step lemmas -/

lemma um_step_fail' (f : Nat) (d u : Bool) (o : Outcome)
    (h : (!o.reachable || o.keyword_missing) = true) :
    UM.step ⟨f, d, u⟩ o =
      if FAILURE_THRESHOLD ≤ f + 1 ∧ d = false then
        (⟨f + 1, true, false⟩, Intent.alertDown)
      else
        (⟨f + 1, d, u⟩, Intent.noAlert) :=
  um_step_fail ⟨f, d, u⟩ o h

lemma um_step_ok' (f : Nat) (d u : Bool) (o : Outcome)
    (h : (o.reachable && !o.keyword_missing) = true) :
    UM.step ⟨f, d, u⟩ o =
      if FAILURE_THRESHOLD ≤ f ∧ u = false then
        (⟨0, false, true⟩, Intent.alertUp)
      else
        (⟨0, d, u⟩, Intent.noAlert) :=
  um_step_ok ⟨f, d, u⟩ o h

lemma mu_step_fail' (f : Nat) (n : Bool) (o : Outcome)
    (h : (!o.reachable || o.keyword_missing) = true) :
    MU.step ⟨f, n⟩ o =
      if FAILURE_THRESHOLD ≤ min (f + 1) FAILURE_THRESHOLD ∧ n = false then
        (⟨min (f + 1) FAILURE_THRESHOLD, true⟩, Intent.alertDown)
      else
        (⟨min (f + 1) FAILURE_THRESHOLD, n⟩, Intent.noAlert) :=
  mu_step_fail ⟨f, n⟩ o h

lemma mu_step_ok' (f : Nat) (n : Bool) (o : Outcome)
    (h : (o.reachable && !o.keyword_missing) = true) :
    MU.step ⟨f, n⟩ o =
      if FAILURE_THRESHOLD ≤ f ∧ n = true then
        (⟨0, false⟩, Intent.alertUp)
      else
        (⟨0, false⟩, Intent.noAlert) :=
  mu_step_ok ⟨f, n⟩ o h

/-! ### Run lemmas: composition and canonical streak runs -/

lemma um_run_append (xs ys : List Outcome) : ∀ s : UM.St,
    UM.run s (xs ++ ys) =
      ((UM.run (UM.run s xs).1 ys).1,
       (UM.run s xs).2 ++ (UM.run (UM.run s xs).1 ys).2) := by
  induction xs with
  | nil => intro s; simp [UM.run]
  | cons o os ih => intro s; simp [UM.run, ih]

lemma mu_run_append (xs ys : List Outcome) : ∀ s : MU.St,
    MU.run s (xs ++ ys) =
      ((MU.run (MU.run s xs).1 ys).1,
       (MU.run s xs).2 ++ (MU.run (MU.run s xs).1 ys).2) := by
  induction xs with
  | nil => intro s; simp [MU.run]
  | cons o os ih => intro s; simp [MU.run, ih]

/-- Prepending one more constant intent to a constant-intent trace. -/
lemma cons_const_range (n : Nat) (a : Intent) :
    a :: (List.range n).map (fun _ => a) = (List.range (n + 1)).map (fun _ => a) := by
  rw [List.range_succ_eq_map, List.map_cons, List.map_map]
  rfl

/-- Peeling the first cycle off the canonical streak intent pattern. -/
lemma cons_pattern_range (n c : Nat) :
    (if c + 0 + 1 = FAILURE_THRESHOLD then Intent.alertDown else Intent.noAlert) ::
      (List.range n).map
        (fun i => if c + (i + 1) + 1 = FAILURE_THRESHOLD then Intent.alertDown
                  else Intent.noAlert)
    = (List.range (n + 1)).map
        (fun i => if c + i + 1 = FAILURE_THRESHOLD then Intent.alertDown
                  else Intent.noAlert) := by
  rw [List.range_succ_eq_map, List.map_cons, List.map_map]
  rfl

/-- In `url-monitor.py`, once the down flag is set, further failing cycles
produce no intent, keep both flags, and keep incrementing the count. -/
lemma um_run_fail_alerted : ∀ (fs : List Outcome),
    (∀ x ∈ fs, (!x.reachable || x.keyword_missing) = true) →
    ∀ (f : Nat) (u : Bool),
    UM.run ⟨f, true, u⟩ fs =
      (⟨f + fs.length, true, u⟩, (List.range fs.length).map (fun _ => Intent.noAlert)) := by
  intro fs
  induction fs with
  | nil => intro _ f u; simp [UM.run]
  | cons o os ih =>
    intro hf f u
    simp only [UM.run]
    rw [um_step_fail' f true u o (hf o (List.mem_cons_self o os)),
      if_neg (by simp)]
    rw [ih (fun x hx => hf x (List.mem_cons_of_mem o hx)) (f + 1) u]
    refine Prod.ext ?_ ?_ <;> dsimp only
    · have h' : f + 1 + os.length = f + (o :: os).length := by
        rw [List.length_cons]
        omega
      rw [h']
    · rw [List.length_cons, cons_const_range]

/-- In `monitor_urls.py`, once notified at the saturated count, further
failing cycles produce no intent and leave the record fixed. -/
lemma mu_run_fail_alerted : ∀ (fs : List Outcome),
    (∀ x ∈ fs, (!x.reachable || x.keyword_missing) = true) →
    MU.run ⟨FAILURE_THRESHOLD, true⟩ fs =
      (⟨FAILURE_THRESHOLD, true⟩, (List.range fs.length).map (fun _ => Intent.noAlert)) := by
  intro fs
  induction fs with
  | nil => intro _; simp [MU.run]
  | cons o os ih =>
    intro hf
    simp only [MU.run]
    rw [mu_step_fail' FAILURE_THRESHOLD true o (hf o (List.mem_cons_self o os)),
      if_neg (by simp)]
    have hmin : min (FAILURE_THRESHOLD + 1) FAILURE_THRESHOLD = FAILURE_THRESHOLD := by
      omega
    rw [hmin, ih (fun x hx => hf x (List.mem_cons_of_mem o hx))]
    refine Prod.ext ?_ ?_ <;> dsimp only
    rw [List.length_cons, cons_const_range]

/-- In `url-monitor.py`, successful cycles from the reset state with no
pending down-alert produce no intent and leave the state fixed. -/
lemma um_run_ok : ∀ (ms : List Outcome),
    (∀ x ∈ ms, (x.reachable && !x.keyword_missing) = true) →
    ∀ u : Bool,
    UM.run ⟨0, false, u⟩ ms =
      (⟨0, false, u⟩, (List.range ms.length).map (fun _ => Intent.noAlert)) := by
  intro ms
  induction ms with
  | nil => intro _ u; simp [UM.run]
  | cons o os ih =>
    intro hm u
    simp only [UM.run]
    rw [um_step_ok' 0 false u o (hm o (List.mem_cons_self o os)),
      if_neg (by simp [FAILURE_THRESHOLD])]
    rw [ih (fun x hx => hm x (List.mem_cons_of_mem o hx)) u]
    refine Prod.ext ?_ ?_ <;> dsimp only
    rw [List.length_cons, cons_const_range]

/-- In `monitor_urls.py`, successful cycles from the reset state produce
no intent and leave the record fixed. -/
lemma mu_run_ok : ∀ (ms : List Outcome),
    (∀ x ∈ ms, (x.reachable && !x.keyword_missing) = true) →
    MU.run ⟨0, false⟩ ms =
      (⟨0, false⟩, (List.range ms.length).map (fun _ => Intent.noAlert)) := by
  intro ms
  induction ms with
  | nil => intro _; simp [MU.run]
  | cons o os ih =>
    intro hm
    simp only [MU.run]
    rw [mu_step_ok' 0 false o (hm o (List.mem_cons_self o os)),
      if_neg (by simp [FAILURE_THRESHOLD])]
    rw [ih (fun x hx => hm x (List.mem_cons_of_mem o hx))]
    refine Prod.ext ?_ ?_ <;> dsimp only
    rw [List.length_cons, cons_const_range]

/-- A failure streak in `url-monitor.py` starting from a fresh count with
no pending down-alert: no intent until the count reaches the threshold,
a single down-alert at the cycle where it first does, no intent after. -/
lemma um_run_fail_fresh : ∀ (fs : List Outcome),
    (∀ x ∈ fs, (!x.reachable || x.keyword_missing) = true) →
    ∀ (c : Nat) (u : Bool), c < FAILURE_THRESHOLD →
    UM.run ⟨c, false, u⟩ fs =
      ((if c + fs.length < FAILURE_THRESHOLD then (⟨c + fs.length, false, u⟩ : UM.St)
        else ⟨c + fs.length, true, false⟩),
       (List.range fs.length).map
         (fun i => if c + i + 1 = FAILURE_THRESHOLD then Intent.alertDown
                   else Intent.noAlert)) := by
  intro fs
  induction fs with
  | nil =>
    intro _ c u hc
    simp only [UM.run, List.length_nil, List.range_zero, List.map_nil, Nat.add_zero]
    rw [if_pos hc]
  | cons o os ih =>
    intro hf c u hc
    have hrest : ∀ x ∈ os, (!x.reachable || x.keyword_missing) = true :=
      fun x hx => hf x (List.mem_cons_of_mem o hx)
    simp only [UM.run]
    rw [um_step_fail' c false u o (hf o (List.mem_cons_self o os))]
    by_cases h5 : FAILURE_THRESHOLD ≤ c + 1
    · rw [if_pos ⟨h5, rfl⟩]
      rw [um_run_fail_alerted os hrest (c + 1) false]
      rw [if_neg (show ¬(c + (o :: os).length < FAILURE_THRESHOLD) by
        rw [List.length_cons]
        omega)]
      refine Prod.ext ?_ ?_ <;> dsimp only
      · have h' : c + 1 + os.length = c + (o :: os).length := by
          rw [List.length_cons]
          omega
        rw [h']
      · rw [List.length_cons, ← cons_pattern_range]
        rw [if_pos (by omega)]
        congr 1
        apply List.map_congr_left
        intro a _
        rw [if_neg (by omega)]
    · rw [if_neg (fun hh => h5 hh.1)]
      rw [ih hrest (c + 1) u (by omega)]
      refine Prod.ext ?_ ?_ <;> dsimp only
      · have h' : c + 1 + os.length = c + (o :: os).length := by
          rw [List.length_cons]
          omega
        rw [h']
      · rw [List.length_cons, ← cons_pattern_range]
        rw [if_neg (by omega)]
        congr 1
        apply List.map_congr_left
        intro a _
        have h'' : c + 1 + a + 1 = c + (a + 1) + 1 := by omega
        rw [h'']

/-- A failure streak in `monitor_urls.py` starting from a fresh count:
same intent pattern, with the count capped at the threshold. -/
lemma mu_run_fail_fresh : ∀ (fs : List Outcome),
    (∀ x ∈ fs, (!x.reachable || x.keyword_missing) = true) →
    ∀ (c : Nat), c < FAILURE_THRESHOLD →
    MU.run ⟨c, false⟩ fs =
      ((if c + fs.length < FAILURE_THRESHOLD then (⟨c + fs.length, false⟩ : MU.St)
        else ⟨FAILURE_THRESHOLD, true⟩),
       (List.range fs.length).map
         (fun i => if c + i + 1 = FAILURE_THRESHOLD then Intent.alertDown
                   else Intent.noAlert)) := by
  intro fs
  induction fs with
  | nil =>
    intro _ c hc
    simp only [MU.run, List.length_nil, List.range_zero, List.map_nil, Nat.add_zero]
    rw [if_pos hc]
  | cons o os ih =>
    intro hf c hc
    have hrest : ∀ x ∈ os, (!x.reachable || x.keyword_missing) = true :=
      fun x hx => hf x (List.mem_cons_of_mem o hx)
    simp only [MU.run]
    rw [mu_step_fail' c false o (hf o (List.mem_cons_self o os))]
    have hmin : min (c + 1) FAILURE_THRESHOLD = c + 1 := by omega
    rw [hmin]
    by_cases h5 : FAILURE_THRESHOLD ≤ c + 1
    · rw [if_pos ⟨h5, rfl⟩]
      have hc1 : c + 1 = FAILURE_THRESHOLD := by omega
      rw [hc1, mu_run_fail_alerted os hrest]
      rw [if_neg (show ¬(c + (o :: os).length < FAILURE_THRESHOLD) by
        rw [List.length_cons]
        omega)]
      refine Prod.ext ?_ ?_ <;> dsimp only
      rw [List.length_cons, ← cons_pattern_range]
      rw [if_pos (by omega)]
      congr 1
      apply List.map_congr_left
      intro a _
      rw [if_neg (by omega)]
    · rw [if_neg (fun hh => h5 hh.1)]
      rw [ih hrest (c + 1) (by omega)]
      refine Prod.ext ?_ ?_ <;> dsimp only
      · have h' : c + 1 + os.length = c + (o :: os).length := by
          rw [List.length_cons]
          omega
        rw [h']
      · rw [List.length_cons, ← cons_pattern_range]
        rw [if_neg (by omega)]
        congr 1
        apply List.map_congr_left
        intro a _
        have h'' : c + 1 + a + 1 = c + (a + 1) + 1 := by omega
        rw [h'']

/-! ### The state after a trace ending in a successful cycle -/

lemma um_step_ok_state (s : UM.St) (o : Outcome)
    (ho : (o.reachable && !o.keyword_missing) = true) (hinv : UM.Inv s) :
    (UM.step s o).1.failures = 0 ∧ (UM.step s o).1.notified_down = false := by
  rw [um_step_ok s o ho]
  split_ifs with h
  · exact ⟨rfl, rfl⟩
  · refine ⟨rfl, ?_⟩
    by_contra hd
    have hd' : s.notified_down = true := by simpa using hd
    exact h ⟨hinv.1.mp hd', hinv.2 hd'⟩

lemma mu_step_ok_state (s : MU.St) (o : Outcome)
    (ho : (o.reachable && !o.keyword_missing) = true) :
    (MU.step s o).1 = ⟨0, false⟩ := by
  rw [mu_step_ok s o ho]
  split_ifs <;> rfl

/-- After any outcome trace from the initial record that is empty or ends
in a fully-successful cycle, the `url-monitor.py` record has a zero count
and a clear down flag. -/
lemma um_after_ok (pre : List Outcome)
    (hpre : ∀ o, pre.getLast? = some o → (o.reachable && !o.keyword_missing) = true) :
    (UM.run UM.init pre).1.failures = 0 ∧ (UM.run UM.init pre).1.notified_down = false := by
  rcases List.eq_nil_or_concat pre with h | ⟨xs, o, h⟩
  · subst h
    exact ⟨rfl, rfl⟩
  · rw [List.concat_eq_append] at h
    subst h
    have ho : (o.reachable && !o.keyword_missing) = true :=
      hpre o (by rw [List.getLast?_concat])
    rw [um_run_append]
    simp only [UM.run]
    exact um_step_ok_state _ o ho (um_inv_run xs UM.init um_inv_init)

/-- Same for the `monitor_urls.py` record. -/
lemma mu_after_ok (pre : List Outcome)
    (hpre : ∀ o, pre.getLast? = some o → (o.reachable && !o.keyword_missing) = true) :
    (MU.run MU.init pre).1 = ⟨0, false⟩ := by
  rcases List.eq_nil_or_concat pre with h | ⟨xs, o, h⟩
  · subst h
    rfl
  · rw [List.concat_eq_append] at h
    subst h
    have ho : (o.reachable && !o.keyword_missing) = true :=
      hpre o (by rw [List.getLast?_concat])
    rw [mu_run_append]
    simp only [MU.run]
    exact mu_step_ok_state _ o ho

/-- Counting the single down-alert in the canonical streak pattern. -/
lemma count_streak_pattern : ∀ n : Nat,
    ((List.range n).map
      (fun i => if i + 1 = FAILURE_THRESHOLD then Intent.alertDown
                else Intent.noAlert)).count Intent.alertDown
      = if FAILURE_THRESHOLD ≤ n then 1 else 0 := by
  intro n
  induction n with
  | zero => simp [FAILURE_THRESHOLD]
  | succ m ih =>
    rw [List.range_succ, List.map_append, List.count_append, ih]
    simp only [List.map_cons, List.map_nil]
    by_cases h : m + 1 = FAILURE_THRESHOLD
    · rw [if_pos h, if_neg (by omega), if_pos (by omega)]
      rfl
    · rw [if_neg h]
      by_cases h2 : FAILURE_THRESHOLD ≤ m
      · rw [if_pos h2, if_pos (by omega)]
        rfl
      · rw [if_neg h2, if_neg (by omega)]
        rfl

/-! ### Claims C3–C9 -/

/-- C3 counterexample: in `url-monitor.py` the failure count is NOT
saturated — six failing cycles from the initial state drive
`failures` to 6, strictly above `FAILURE_THRESHOLD = 5` (the script
increments `failure_count += 1` with no `min(..., FAILURE_THRESHOLD)`). -/
theorem claim_c3_cex :
    (UM.run UM.init (List.replicate 6 bad)).1.failures = 6 ∧
    FAILURE_THRESHOLD < (UM.run UM.init (List.replicate 6 bad)).1.failures := by
  constructor <;> decide

/-- C3 (amended): in `monitor_urls.py` the count never exceeds
`FAILURE_THRESHOLD` on any outcome sequence from the initial state, and
in BOTH variants any fully-successful cycle sets the count to exactly 0;
in `url-monitor.py` the count is not capped during a failure streak. -/
theorem claim_c3_amended :
    (∀ os : List Outcome, (MU.run MU.init os).1.failures ≤ FAILURE_THRESHOLD) ∧
    (∀ (s : UM.St) (t : MU.St) (o : Outcome),
      (o.reachable && !o.keyword_missing) = true →
      (UM.step s o).1.failures = 0 ∧ (MU.step t o).1.failures = 0) := by
  constructor
  · intro os
    exact (mu_inv_run os MU.init mu_inv_init).2
  · intro s t o ho
    constructor
    · rw [um_step_ok s o ho]
      split_ifs <;> rfl
    · rw [mu_step_ok t o ho]
      split_ifs <;> rfl

theorem claim_c3_amended_witness :
    (MU.run MU.init (List.replicate 7 bad)).1.failures ≤ FAILURE_THRESHOLD ∧
    (UM.step ⟨3, false, false⟩ good).1.failures = 0 ∧
    (MU.step ⟨5, true⟩ good).1.failures = 0 :=
  ⟨claim_c3_amended.1 (List.replicate 7 bad),
   claim_c3_amended.2 ⟨3, false, false⟩ ⟨5, true⟩ good (by decide)⟩

/-- C4 counterexample: in `url-monitor.py`, a failing cycle applied to the
already-alerted saturated state `{failures = 5, notified_down = true}`
produces no intent but INCREMENTS the count to 6 — it is not left
unchanged at the threshold. -/
theorem claim_c4_cex :
    (UM.step ⟨FAILURE_THRESHOLD, true, false⟩ bad).2 = Intent.noAlert ∧
    (UM.step ⟨FAILURE_THRESHOLD, true, false⟩ bad).1.failures = FAILURE_THRESHOLD + 1 := by
  constructor <;> decide

/-- C4 (amended): a failing cycle on an already-alerted state yields the
`None` intent in both variants; in `monitor_urls.py` the saturated state
`{5, notified}` is genuinely fixed (idempotent), while in `url-monitor.py`
the flags are unchanged but the count increments past the threshold. -/
theorem claim_c4_amended (o : Outcome) (ho : (!o.reachable || o.keyword_missing) = true)
    (f : Nat) (u : Bool) :
    UM.step ⟨f, true, u⟩ o = (⟨f + 1, true, u⟩, Intent.noAlert) ∧
    MU.step ⟨FAILURE_THRESHOLD, true⟩ o = (⟨FAILURE_THRESHOLD, true⟩, Intent.noAlert) := by
  constructor
  · rw [um_step_fail ⟨f, true, u⟩ o ho]
    rw [if_neg]
    simp
  · rw [mu_step_fail ⟨FAILURE_THRESHOLD, true⟩ o ho]
    rw [if_neg]
    · simp [FAILURE_THRESHOLD]
    · simp

theorem claim_c4_amended_witness :
    UM.step ⟨FAILURE_THRESHOLD, true, false⟩ bad
      = (⟨FAILURE_THRESHOLD + 1, true, false⟩, Intent.noAlert) ∧
    MU.step ⟨FAILURE_THRESHOLD, true⟩ bad
      = (⟨FAILURE_THRESHOLD, true⟩, Intent.noAlert) :=
  claim_c4_amended bad (by decide) FAILURE_THRESHOLD false

/-- C5 counterexample: in `url-monitor.py`, the successful cycle right
after an up-alert (prior state `{0, false, true}`) yields intent `None`
but leaves `notified_up` at `true` — the next state is `{0, false, true}`,
not the claimed `{0, false, false}` (the success branch only touches the
flags when `failure_count >= FAILURE_THRESHOLD`). -/
theorem claim_c5_cex :
    UM.step ⟨0, false, true⟩ good = (⟨0, false, true⟩, Intent.noAlert) ∧
    (UM.step ⟨0, false, true⟩ good).1.notified_up = true := by
  constructor <;> decide

/-- C5 (amended): a fully-successful cycle on a not-yet-alerted prior
state with count below the threshold yields intent `None`; in
`url-monitor.py` both flags are left unchanged (so from `{0, false, true}`
the next state is `{0, false, true}`, `alertedUp` remaining `true`), while
in `monitor_urls.py` the success branch resets the record to `{0, false}`. -/
theorem claim_c5_amended (o : Outcome) (ho : (o.reachable && !o.keyword_missing) = true)
    (s : UM.St) (hf : s.failures < FAILURE_THRESHOLD) (hd : s.notified_down = false)
    (t : MU.St) (ht : t.notified = false) :
    UM.step s o = (⟨0, false, s.notified_up⟩, Intent.noAlert) ∧
    MU.step t o = (⟨0, false⟩, Intent.noAlert) := by
  constructor
  · rw [um_step_ok s o ho]
    rw [if_neg]
    · rw [hd]
    · intro hcon
      omega
  · rw [mu_step_ok t o ho]
    rw [if_neg]
    intro hcon
    rw [ht] at hcon
    exact Bool.false_ne_true hcon.2

theorem claim_c5_amended_witness :
    UM.step ⟨0, false, true⟩ good = (⟨0, false, true⟩, Intent.noAlert) ∧
    MU.step ⟨0, false⟩ good = (⟨0, false⟩, Intent.noAlert) :=
  claim_c5_amended good (by decide) ⟨0, false, true⟩ (by decide) rfl ⟨0, false⟩ rfl

/-- C6 counterexample: with an absent keyword, `keyword_found` itself
returns `false` (its first line is `if not content or not keyword:
return False`), not `true` as the claim states. -/
theorem claim_c6_cex : keyword_found (some "Online".toList) none = false := rfl

/-- C6 (amended): `keyword_found` returns `false` whenever the keyword is
absent; the trivial pass of a keyword-less target is realised at the call
site instead, where `keyword_missing = keyword and reachable and not
keyword_found(...)` is falsy for an absent keyword, so no content
requirement is imposed on the cycle. -/
theorem claim_c6_amended :
    (∀ content : Option (List Char), keyword_found content none = false) ∧
    (∀ (reachable : Bool) (content : Option (List Char)),
      keyword_missing none reachable content = false) := by
  constructor
  · intro content
    cases content <;> rfl
  · intro r c
    rfl

/-- C7: in `monitor_urls.py`, `check_url` calls `is_local_ip` inside its
`try`, and `is_local_ip` dereferences `urlparse(url).hostname` with no
`None` guard; for a URL without a hostname (e.g. `"not-a-url"`) this
raises `AttributeError`, which `except requests.RequestException` does
NOT catch, so the exception propagates to the caller — contradicting the
claim. In `url-monitor.py` the guard `hostname and hostname.startswith`
was added and every all-attempts-fail run returns `(False, None)`. -/
theorem claim_c7_bug :
    (∀ a : Att, MU.check_url none a = Except.error PyError.attributeError) ∧
    UM.check_url none (List.replicate RETRY_COUNT none) = (false, none) ∧
    UM.check_url none [some (500, "e".toList), some (503, "e".toList)] = (false, none) := by
  refine ⟨fun a => rfl, rfl, ?_⟩
  decide

/-- C8: content matching is case-insensitive and ignores markup —
`keyword_found("<b>Online</b>", "online")` is `true`. -/
theorem claim_c8 :
    keyword_found (some "<b>Online</b>".toList) (some "online".toList) = true := by
  decide

/-- C9: `load_failures` returns the empty mapping whenever the backing
file is missing or its contents fail to parse (`JSONDecodeError` caught
and reported, then `return {}`); the function is total — the caller never
sees the parse failure. -/
theorem claim_c9 {M : Type} (empty : M) (backing : Option (Option M))
    (h : backing = none ∨ backing = some none) :
    load_failures empty backing = empty := by
  rcases h with h | h <;> simp [h, load_failures]

theorem claim_c9_witness :
    load_failures (0 : Nat) none = 0 ∧ load_failures (0 : Nat) (some none) = 0 :=
  ⟨claim_c9 0 none (Or.inl rfl), claim_c9 0 (some none) (Or.inr rfl)⟩

/-! ### Claims C1, C2, C10 -/

/-- C1: starting from the initial debounce state, along any outcome
sequence, every contiguous failure streak — an all-failing segment whose
preceding cycles are absent or end in a fully-successful cycle — yields
the canonical intent trace: a single `AlertDown` exactly at its
`FAILURE_THRESHOLD`-th cycle (the cycle where the consecutive-failure
count first reaches the threshold) and `None` at every other cycle. Hence
exactly one `AlertDown` when the streak has length ≥ THRESHOLD, and none
at all when it is shorter. Proved for both script variants. -/
theorem claim_c1 (pre streak : List Outcome)
    (hstreak : ∀ x ∈ streak, (!x.reachable || x.keyword_missing) = true)
    (hpre : ∀ o, pre.getLast? = some o → (o.reachable && !o.keyword_missing) = true) :
    ((UM.run (UM.run UM.init pre).1 streak).2 =
      (List.range streak.length).map
        (fun i => if i + 1 = FAILURE_THRESHOLD then Intent.alertDown
                  else Intent.noAlert)) ∧
    ((MU.run (MU.run MU.init pre).1 streak).2 =
      (List.range streak.length).map
        (fun i => if i + 1 = FAILURE_THRESHOLD then Intent.alertDown
                  else Intent.noAlert)) ∧
    (FAILURE_THRESHOLD ≤ streak.length →
      (UM.run (UM.run UM.init pre).1 streak).2.count Intent.alertDown = 1 ∧
      (MU.run (MU.run MU.init pre).1 streak).2.count Intent.alertDown = 1) ∧
    (streak.length < FAILURE_THRESHOLD →
      (UM.run (UM.run UM.init pre).1 streak).2.count Intent.alertDown = 0 ∧
      (MU.run (MU.run MU.init pre).1 streak).2.count Intent.alertDown = 0) := by
  obtain ⟨hf0, hd0⟩ := um_after_ok pre hpre
  have hU : (UM.run (UM.run UM.init pre).1 streak).2 =
      (List.range streak.length).map
        (fun i => if i + 1 = FAILURE_THRESHOLD then Intent.alertDown
                  else Intent.noAlert) := by
    rcases hs : (UM.run UM.init pre).1 with ⟨f, d, u⟩
    rw [hs] at hf0 hd0
    dsimp only at hf0 hd0
    subst hf0 hd0
    rw [um_run_fail_fresh streak hstreak 0 u (by decide)]
    dsimp only
    apply List.map_congr_left
    intro a _
    have h0 : 0 + a + 1 = a + 1 := by omega
    rw [h0]
  have hsM := mu_after_ok pre hpre
  have hM : (MU.run (MU.run MU.init pre).1 streak).2 =
      (List.range streak.length).map
        (fun i => if i + 1 = FAILURE_THRESHOLD then Intent.alertDown
                  else Intent.noAlert) := by
    rw [hsM, mu_run_fail_fresh streak hstreak 0 (by decide)]
    dsimp only
    apply List.map_congr_left
    intro a _
    have h0 : 0 + a + 1 = a + 1 := by omega
    rw [h0]
  refine ⟨hU, hM, ?_, ?_⟩
  · intro hlen
    exact ⟨by rw [hU, count_streak_pattern, if_pos hlen],
      by rw [hM, count_streak_pattern, if_pos hlen]⟩
  · intro hlen
    exact ⟨by rw [hU, count_streak_pattern, if_neg (by omega)],
      by rw [hM, count_streak_pattern, if_neg (by omega)]⟩

theorem claim_c1_witness :
    (UM.run (UM.run UM.init []).1 (List.replicate 5 bad)).2.count Intent.alertDown = 1 ∧
    (MU.run (MU.run MU.init []).1 (List.replicate 5 bad)).2.count Intent.alertDown = 1 :=
  (claim_c1 [] (List.replicate 5 bad) (by decide)
    (fun o ho => by simp at ho)).2.2.1 (by decide)

/-- C2: after any cycle sequence from the initial state that leaves the
down flag set, the recovery produces exactly one `AlertUp`, on the first
fully-successful cycle: the remaining failing cycles before it yield
`None`, the first success yields `AlertUp`, and subsequent successful
cycles yield `None` again. Proved for both script variants (in
`monitor_urls.py` the single `notified` flag plays the role of
`alertedDown`). -/
theorem claim_c2 (pre fs more : List Outcome) (o : Outcome)
    (hUM : (UM.run UM.init pre).1.notified_down = true)
    (hMU : (MU.run MU.init pre).1.notified = true)
    (hfs : ∀ x ∈ fs, (!x.reachable || x.keyword_missing) = true)
    (ho : (o.reachable && !o.keyword_missing) = true)
    (hmore : ∀ x ∈ more, (x.reachable && !x.keyword_missing) = true) :
    ((UM.run (UM.run UM.init pre).1 (fs ++ o :: more)).2 =
      (List.range fs.length).map (fun _ => Intent.noAlert)
        ++ Intent.alertUp :: (List.range more.length).map (fun _ => Intent.noAlert)) ∧
    ((MU.run (MU.run MU.init pre).1 (fs ++ o :: more)).2 =
      (List.range fs.length).map (fun _ => Intent.noAlert)
        ++ Intent.alertUp :: (List.range more.length).map (fun _ => Intent.noAlert)) := by
  constructor
  · have hinv := um_inv_run pre UM.init um_inv_init
    rcases hs : (UM.run UM.init pre).1 with ⟨f, d, u⟩
    rw [hs] at hinv hUM
    obtain ⟨h1, h2⟩ := hinv
    have hd : d = true := hUM
    have hf5 : FAILURE_THRESHOLD ≤ f := h1.mp hUM
    have hu : u = false := h2 hUM
    subst hd hu
    rw [um_run_append]
    rw [um_run_fail_alerted fs hfs f false]
    dsimp only
    simp only [UM.run]
    rw [um_step_ok' (f + fs.length) true false o ho, if_pos ⟨by omega, rfl⟩]
    rw [um_run_ok more hmore true]
  · have hinv := mu_inv_run pre MU.init mu_inv_init
    rcases hs : (MU.run MU.init pre).1 with ⟨f, n⟩
    rw [hs] at hinv hMU
    obtain ⟨h1, h2⟩ := hinv
    have hn : n = true := hMU
    have hf5 : FAILURE_THRESHOLD ≤ f := h1.mp hMU
    have hle : f ≤ FAILURE_THRESHOLD := h2
    have hf : f = FAILURE_THRESHOLD := by omega
    subst hn hf
    rw [mu_run_append]
    rw [mu_run_fail_alerted fs hfs]
    dsimp only
    simp only [MU.run]
    rw [mu_step_ok' FAILURE_THRESHOLD true o ho, if_pos ⟨le_refl _, rfl⟩]
    rw [mu_run_ok more hmore]

theorem claim_c2_witness :
    ((UM.run (UM.run UM.init (List.replicate 5 bad)).1 ([bad] ++ good :: [good])).2 =
      (List.range ([bad] : List Outcome).length).map (fun _ => Intent.noAlert)
        ++ Intent.alertUp
        :: (List.range ([good] : List Outcome).length).map (fun _ => Intent.noAlert)) ∧
    ((MU.run (MU.run MU.init (List.replicate 5 bad)).1 ([bad] ++ good :: [good])).2 =
      (List.range ([bad] : List Outcome).length).map (fun _ => Intent.noAlert)
        ++ Intent.alertUp
        :: (List.range ([good] : List Outcome).length).map (fun _ => Intent.noAlert)) :=
  claim_c2 (List.replicate 5 bad) [bad] [good] good (by decide) (by decide)
    (by decide) (by decide) (by decide)

/-- C10: on every state reachable from the initial record, a set down
flag implies the failure count has reached the threshold, and the code's
up-alert guard — `failure_count >= FAILURE_THRESHOLD and not notified_up`
in `url-monitor.py`, `failure_count >= FAILURE_THRESHOLD and notified` in
`monitor_urls.py` — coincides exactly with the spec's `alertedDown` test
(`notified_down`, resp. the single `notified` flag). -/
theorem claim_c10 (tr : List Outcome) :
    ((UM.run UM.init tr).1.notified_down = true →
      FAILURE_THRESHOLD ≤ (UM.run UM.init tr).1.failures) ∧
    ((decide (FAILURE_THRESHOLD ≤ (UM.run UM.init tr).1.failures)
        && !(UM.run UM.init tr).1.notified_up) = (UM.run UM.init tr).1.notified_down) ∧
    ((MU.run MU.init tr).1.notified = true →
      FAILURE_THRESHOLD ≤ (MU.run MU.init tr).1.failures) ∧
    ((decide (FAILURE_THRESHOLD ≤ (MU.run MU.init tr).1.failures)
        && (MU.run MU.init tr).1.notified) = (MU.run MU.init tr).1.notified) := by
  obtain ⟨hU1, hU2⟩ := um_inv_run tr UM.init um_inv_init
  obtain ⟨hM1, hM2⟩ := mu_inv_run tr MU.init mu_inv_init
  refine ⟨fun h => hU1.mp h, ?_, fun h => hM1.mp h, ?_⟩
  · by_cases hd : (UM.run UM.init tr).1.notified_down = true
    · rw [hd, hU2 hd]
      simp [hU1.mp hd]
    · have hd' : (UM.run UM.init tr).1.notified_down = false := by
        simpa using hd
      rw [hd']
      have hnf : ¬ FAILURE_THRESHOLD ≤ (UM.run UM.init tr).1.failures :=
        fun h => hd (hU1.mpr h)
      simp [hnf]
  · by_cases hn : (MU.run MU.init tr).1.notified = true
    · rw [hn]
      simp [hM1.mp hn]
    · have hn' : (MU.run MU.init tr).1.notified = false := by
        simpa using hn
      rw [hn']
      simp

theorem claim_c10_witness :
    FAILURE_THRESHOLD ≤ (UM.run UM.init (List.replicate 5 bad)).1.failures ∧
    FAILURE_THRESHOLD ≤ (MU.run MU.init (List.replicate 5 bad)).1.failures :=
  ⟨(claim_c10 (List.replicate 5 bad)).1 (by decide),
   (claim_c10 (List.replicate 5 bad)).2.2.1 (by decide)⟩

end UrlMonitoring
